import Mathlib

/-!
Verification of the SplitBill upload server (src/server.js).

The server is shallowly embedded: each route handler becomes a pure Lean
function from an environment describing the outcomes of the external
collaborators (multer, pdf-parse, axios / the completion API, sharp,
image-size, JSON.parse) to a record describing the HTTP response it sends
and the file-system deletions it performs.  Everything under src/ is
translated faithfully, including two JavaScript scoping slips in the PDF
route that change its observable behaviour (documented on the definitions
below).  Library behaviour that is not part of src/ (multer size limits,
express-rate-limit) is modelled from the spec and marked as such.
-/

namespace SplitBill

/-- Image budget in MB, src/server.js line 179: MAX_SIZE_MB = 15. -/
def MAX_SIZE_MB : ℕ := 15

/-- Image budget in bytes, src/server.js line 180: MAX_SIZE_BYTES = MAX_SIZE_MB * 1024 * 1024. -/
def MAX_SIZE_BYTES : ℕ := MAX_SIZE_MB * 1024 * 1024

/-- Multer limit, src/server.js line 61: fileSize: 20 * 1024 * 1024 (20MB max file size). -/
def uploadFileSizeLimit : ℕ := 20 * 1024 * 1024

/-- Rate limiter window, src/server.js line 29: windowMs: 15 * 60 * 1000. -/
def apiLimiterWindowMs : ℕ := 15 * 60 * 1000

/-- Rate limiter maximum, src/server.js line 30: max: 5. -/
def apiLimiterMax : ℕ := 5

/-- Cost rate, src/server.js line 21: COST_PER_1K_TOKENS = 0.01, embedded as the exact rational. -/
def COST_PER_1K_TOKENS : ℚ := 1 / 100

/-- A JSON response body as sent by the handlers, together with its HTTP
status.  Each optional field is present in some of the literal bodies of
src/server.js and absent in others. -/
structure Response where
  status : ℕ
  success : Option Bool := none
  error : Option String := none
  details : Option String := none
  message : Option String := none
  rawContent : Option String := none
  extractedData : Option String := none
deriving DecidableEq, Repr

/-- A byte buffer (a Node Buffer): a length and the byte at each index.
Lengths reach tens of megabytes, so the contents are a function rather
than a list. -/
structure Buffer where
  size : ℕ
  byte : ℕ → ℕ

/-- The bytes of a buffer in order. -/
def Buffer.toList (b : Buffer) : List ℕ := (List.range b.size).map b.byte

/-- The multer file object for a stored upload: req.file.path and
req.file.mimetype.  multer always sets mimetype to a string; JavaScript
treats the empty string as falsy in the fallback on line 226. -/
structure UploadedFile where
  path : String
  mimetype : String
deriving DecidableEq, Repr

/-- A successful completion-API response, as used by the handlers:
choices[0].message.content and usage.total_tokens (absent when the
usage object or its total_tokens field is missing). -/
structure ApiSuccess where
  content : String
  usage : Option ℕ
deriving DecidableEq, Repr

/-- The standard base64 alphabet. -/
def base64Alphabet : List Char :=
  "ABCDEFGHIJKLMNOPQRSTUVWXYZabcdefghijklmnopqrstuvwxyz0123456789+/".toList

/-- The base64 digit for a 6-bit value. -/
def base64Digit (n : ℕ) : Char := base64Alphabet.getD n '='

/-- RFC 4648 base64 of a byte list, as produced by Buffer.toString applied
to the argument base64 on lines 210 and 222 of src/server.js. -/
def base64Encode : List ℕ → String
  | [] => ""
  | [a] =>
      String.mk [base64Digit (a / 4), base64Digit (a % 4 * 16), '=', '=']
  | [a, b] =>
      String.mk [base64Digit (a / 4), base64Digit (a % 4 * 16 + b / 16),
                 base64Digit (b % 16 * 4), '=']
  | a :: b :: c :: rest =>
      String.mk [base64Digit (a / 4), base64Digit (a % 4 * 16 + b / 16),
                 base64Digit (b % 16 * 4 + c / 64), base64Digit (c % 64)]
        ++ base64Encode rest

/-- JavaScript string disjunction: a || b is b when a is the empty string
(falsy), else a. -/
def jsStringOr (a b : String) : String := if a = "" then b else a

/-- src/server.js line 226: imageMimeType = req.file.mimetype ||
(processedImageBuffer !== imageBuffer ? image/jpeg : image/png).
The second argument records whether the resize branch ran, which is
exactly when processedImageBuffer is a new object. -/
def imageMimeTypeOf (mimetype : String) (resized : Bool) : String :=
  jsStringOr mimetype (if resized then "image/jpeg" else "image/png")

/-- src/server.js line 254: the template literal
data:image/${imageMimeType};base64,${base64Image}.  Note the fixed
data:image/ text is prepended to the full mime type. -/
def imageDataUrl (imageMimeType base64Image : String) : String :=
  "data:image/" ++ imageMimeType ++ ";base64," ++ base64Image

/-- The resize-and-re-encode call on lines 204 to 207 of src/server.js:
sharp(imageBuffer).resize(newWidth, newHeight).jpeg(quality 85,
progressive true). -/
structure ResizeCall where
  width : ℕ
  height : ℕ
  quality : ℕ
  progressive : Bool
deriving DecidableEq, Repr

/-- Exact value of Math.floor(dim * Math.sqrt(MAX_SIZE_BYTES / (size * 1.5)))
from lines 197 to 199 of src/server.js, read over the reals (the float
computation idealised to exact arithmetic): the floor of
dim * sqrt(MAX_SIZE_BYTES / (size * 1.5)) equals
Nat.sqrt (2 * MAX_SIZE_BYTES * dim ^ 2 / (3 * size)), which is proved as
scaledDim_eq_floor below; this form keeps the definition computable. -/
def scaledDim (dim size : ℕ) : ℕ :=
  Nat.sqrt (2 * MAX_SIZE_BYTES * dim ^ 2 / (3 * size))

/-- What a handler run did: the response it sent, the paths it successfully
unlinked (in order), and for the image route the resize call it made and
the buffer and data URL it sent to the completion API, when it got that
far. -/
structure HandlerResult where
  response : Response
  deleted : List String
  resize : Option ResizeCall := none
  sentBuffer : Option Buffer := none
  sentUrl : Option String := none

/-- Environment of one /upload-pdf request: the stored file (none when no
file field was sent), and the outcomes of the external calls the handler
makes, in order: pdfParse (extracted text, or the thrown error detail
i.e. error.response?.data || error.message), the axios POST to the
completion API, and JSON.parse on the returned content (parsed value, or
the error1.message of the SyntaxError). -/
structure PdfEnv where
  file : Option UploadedFile
  pdfParseResult : Except String String
  apiResult : Except String ApiSuccess
  jsonParseResult : Except String String

/-- The response built by the outer catch of /upload-pdf, lines 146 to 163.
Two points of JavaScript semantics are embedded here:
first, filePath is a const declared inside the try block (line 75), so the
cleanup code in the catch block (line 151) reads an undeclared name and
throws a ReferenceError, which the nested catch(unlinkError) swallows
after logging: the catch block therefore never unlinks anything;
second, the response body is sent with status 500 and the detail string
error.response?.data || error.message. -/
def pdfOuterCatchResponse (detail : String) : Response :=
  { status := 500, success := some false, error := some "OpenAI API failed",
    details := some detail }

/-- The /upload-pdf handler, src/server.js lines 66 to 164.  Control flow:
no file gives 400; a pdfParse or axios failure lands in the outer catch
(which, per pdfOuterCatchResponse, deletes nothing because filePath is out
of scope there); on success the file is unlinked (line 126) and the
content parsed.  The inner catch(error1) on line 136 builds its body from
error.response?.data (line 141), but no name error is in scope there, so
evaluating the body throws ReferenceError with message
error is not defined before res.json runs; that exception lands in the
outer catch, whose response is what the client receives. -/
def uploadPdf (env : PdfEnv) : HandlerResult :=
  match env.file with
  | none =>
      { response := { status := 400, error := some "No file uploaded" }, deleted := [] }
  | some file =>
      match env.pdfParseResult with
      | Except.error detail =>
          { response := pdfOuterCatchResponse detail, deleted := [] }
      | Except.ok _extractedText =>
          match env.apiResult with
          | Except.error detail =>
              { response := pdfOuterCatchResponse detail, deleted := [] }
          | Except.ok _api =>
              match env.jsonParseResult with
              | Except.ok parsed =>
                  { response := { status := 200, success := some true,
                                  extractedData := some parsed },
                    deleted := [file.path] }
              | Except.error _ =>
                  { response := pdfOuterCatchResponse "error is not defined",
                    deleted := [file.path] }

/-- Environment of one /upload-image request: the stored file, the buffer
read from it, and the outcomes of the external calls: image-size
(dimensions, or the thrown error), sharp resize-and-re-encode (the output
buffer, or the thrown error), the axios POST, and JSON.parse on the
returned content (parsed value, or the error1.message). -/
structure ImgEnv where
  file : Option UploadedFile
  imageBuffer : Buffer
  dimsResult : Except String (ℕ × ℕ)
  sharpResult : Except String Buffer
  apiResult : Except String ApiSuccess
  jsonParseResult : Except String String

/-- The 400 sent from the resize catch, src/server.js lines 211 to 218.
This return leaves the handler immediately: no unlink call precedes it,
so the stored upload is not deleted on this path. -/
def resizeCatchResult : HandlerResult :=
  { response := { status := 400, success := some false,
                  error := some "Image processing failed",
                  details := some "Unable to resize image. Try uploading a smaller image." },
    deleted := [] }

/-- Everything the image route does from line 225 on, once processed bytes
are fixed: build the mime type and data URL, call the completion API,
unlink the file, and parse the content.  The resized flag records whether
processedImageBuffer is a new object (the !== test on lines 226 and 286).
req.tempResizedPath is never assigned anywhere in src/server.js, so the
cleanup branches mentioning it (lines 286 to 292 and 317) never unlink a
second path.  On an axios failure the outer catch (lines 311 to 327)
unlinks req.file.path, which still exists, and answers 500 with
error Image processing failed; on a JSON.parse failure the inner catch
(lines 302 to 310) answers 500 with error Parsing failed, the
error1.message detail and the raw content. -/
def imageAfterResize (file : UploadedFile) (processed : Buffer)
    (resizeCall : Option ResizeCall) (resized : Bool) (env : ImgEnv) : HandlerResult :=
  let mime := imageMimeTypeOf file.mimetype resized
  let url := imageDataUrl mime (base64Encode processed.toList)
  match env.apiResult with
  | Except.error detail =>
      { response := { status := 500, success := some false,
                      error := some "Image processing failed", details := some detail },
        deleted := [file.path], resize := resizeCall,
        sentBuffer := some processed, sentUrl := some url }
  | Except.ok api =>
      match env.jsonParseResult with
      | Except.ok parsed =>
          { response := { status := 200, success := some true,
                          extractedData := some parsed },
            deleted := [file.path], resize := resizeCall,
            sentBuffer := some processed, sentUrl := some url }
      | Except.error msg =>
          { response := { status := 500, success := some false,
                          error := some "Parsing failed", details := some msg,
                          rawContent := some api.content },
            deleted := [file.path], resize := resizeCall,
            sentBuffer := some processed, sentUrl := some url }

/-- The /upload-image handler, src/server.js lines 167 to 328.  No file
gives 400.  A buffer over MAX_SIZE_BYTES enters the resize branch (line
187): a failure of image-size or sharp gives the early 400 of
resizeCatchResult; success re-encodes with the scaled dimensions at JPEG
quality 85, progressive.  A buffer within the budget is passed through
unchanged (lines 219 to 223). -/
def uploadImage (env : ImgEnv) : HandlerResult :=
  match env.file with
  | none =>
      { response := { status := 400, error := some "No image uploaded" }, deleted := [] }
  | some file =>
      if env.imageBuffer.size > MAX_SIZE_BYTES then
        match env.dimsResult with
        | Except.error _ => resizeCatchResult
        | Except.ok (w, h) =>
            match env.sharpResult with
            | Except.error _ => resizeCatchResult
            | Except.ok buf =>
                imageAfterResize file buf
                  (some { width := scaledDim w env.imageBuffer.size,
                          height := scaledDim h env.imageBuffer.size,
                          quality := 85, progressive := true }) true env
      else
        imageAfterResize file env.imageBuffer none false env

/-- The error-handling middleware, src/server.js lines 355 to 372: any
error forwarded to it is answered with status 500 and the body
success false, error Server error, message err.message. -/
def errorMiddlewareResponse (errMessage : String) : Response :=
  { status := 500, success := some false, error := some "Server error",
    message := some errMessage }

/-- Modelled from the spec: multer (a dependency, not under src/) enforces
limits.fileSize from lines 58 to 63 of src/server.js; an upload whose
byte size exceeds the limit is aborted before the route handler runs and
its limit error (message File too large) is forwarded to the
error-handling middleware, which builds the response sent to the client.
An upload within the limit passes through (none). -/
def uploadIntake (size : ℕ) : Option Response :=
  if size > uploadFileSizeLimit then
    some (errorMiddlewareResponse "File too large")
  else none

/-- The rate limiter message body, src/server.js lines 28 to 37, sent with
the 429 status used by express-rate-limit. -/
def apiLimiterMessage : Response :=
  { status := 429, success := some false,
    error := some "Too many requests from this IP, please try again after 15 minutes" }

/-- Modelled from the spec: express-rate-limit (a dependency, not under
src/) counts the requests of each client address inside a window of
apiLimiterWindowMs milliseconds; the n-th request (1-based) of a client
within one window passes to the handler when n is at most apiLimiterMax
and is otherwise answered 429 with the configured message, regardless of
the request body.  The configuration values are those of src/server.js
lines 28 to 40, applied to both upload routes. -/
def apiLimiterDecision (n : ℕ) : Option Response :=
  if n ≤ apiLimiterMax then none else some apiLimiterMessage

/-- The mutable usage counters of src/server.js lines 18 to 21 that the
claims read: totalTokensUsed and estimatedCost (exact arithmetic in ℚ in
place of float). -/
structure UsageStats where
  totalTokensUsed : ℕ
  estimatedCost : ℚ
deriving DecidableEq, Repr

/-- Counter state at process start: both zero. -/
def initialStats : UsageStats := { totalTokensUsed := 0, estimatedCost := 0 }

/-- The token-usage update block, src/server.js lines 117 to 123 and 274
to 280: when the response carries usage.total_tokens and it is non-zero
(a zero is falsy in the JavaScript guard), add it to totalTokensUsed and
add tokensUsed / 1000 * COST_PER_1K_TOKENS to estimatedCost. -/
def recordUsage (s : UsageStats) (usage : Option ℕ) : UsageStats :=
  match usage with
  | none => s
  | some t =>
      if t = 0 then s
      else { totalTokensUsed := s.totalTokensUsed + t,
             estimatedCost := s.estimatedCost + (t : ℚ) / 1000 * COST_PER_1K_TOKENS }

/-- The counter state after a sequence of completed requests whose
completion responses reported the given usage values, in order. -/
def runRequests (s : UsageStats) (ts : List (Option ℕ)) : UsageStats :=
  ts.foldl recordUsage s

/-! Helper lemmas. -/

/-- The natural floor of a real square root can be computed on the floor of
the radicand. -/
lemma natFloor_sqrt_eq (x : ℝ) (hx : 0 ≤ x) :
    ⌊Real.sqrt x⌋₊ = Nat.sqrt ⌊x⌋₊ := by
  rw [Nat.floor_eq_iff (Real.sqrt_nonneg x)]
  refine ⟨?_, ?_⟩
  · calc ((Nat.sqrt ⌊x⌋₊ : ℕ) : ℝ) ≤ Real.sqrt ((⌊x⌋₊ : ℕ) : ℝ) :=
        Real.nat_sqrt_le_real_sqrt
      _ ≤ Real.sqrt x := Real.sqrt_le_sqrt (Nat.floor_le hx)
  · have h1 : x < (⌊x⌋₊ : ℝ) + 1 := Nat.lt_floor_add_one x
    have h2 : (⌊x⌋₊ + 1 : ℕ) ≤ (Nat.sqrt ⌊x⌋₊ + 1) ^ 2 :=
      Nat.succ_le_of_lt (by simpa [pow_two] using Nat.lt_succ_sqrt ⌊x⌋₊)
    have h3 : x < ((Nat.sqrt ⌊x⌋₊ : ℝ) + 1) ^ 2 := by
      refine h1.trans_le ?_
      exact_mod_cast h2
    exact (Real.sqrt_lt' (by positivity)).mpr h3

/-- The computable scaledDim is exactly the floor of
dim * sqrt(MAX_SIZE_BYTES / (size * 1.5)). -/
lemma scaledDim_eq_floor (dim size : ℕ) (hsize : 0 < size) :
    scaledDim dim size
      = ⌊(dim : ℝ) * Real.sqrt ((MAX_SIZE_BYTES : ℝ) / ((size : ℝ) * 1.5))⌋₊ := by
  have hs : ((size : ℕ) : ℝ) ≠ 0 := Nat.cast_ne_zero.mpr hsize.ne'
  have key : (dim : ℝ) * Real.sqrt ((MAX_SIZE_BYTES : ℝ) / ((size : ℝ) * 1.5))
      = Real.sqrt (((2 * MAX_SIZE_BYTES * dim ^ 2 : ℕ) : ℝ) / ((3 * size : ℕ) : ℝ)) := by
    rw [← Real.sqrt_sq (by positivity : (0 : ℝ) ≤ (dim : ℝ)),
      ← Real.sqrt_mul (by positivity)]
    congr 1
    push_cast
    field_simp
    ring
  rw [key, natFloor_sqrt_eq _ (by positivity), Nat.floor_div_nat, Nat.floor_natCast]
  rfl

/-- The resize call recorded by imageAfterResize is the one it was given. -/
lemma imageAfterResize_resize (file : UploadedFile) (processed : Buffer)
    (rc : Option ResizeCall) (rz : Bool) (env : ImgEnv) :
    (imageAfterResize file processed rc rz env).resize = rc := by
  unfold imageAfterResize
  cases env.apiResult with
  | error d => rfl
  | ok api =>
      cases env.jsonParseResult with
      | error m => rfl
      | ok p => rfl

/-- The buffer sent by imageAfterResize is the processed buffer it was
given. -/
lemma imageAfterResize_sentBuffer (file : UploadedFile) (processed : Buffer)
    (rc : Option ResizeCall) (rz : Bool) (env : ImgEnv) :
    (imageAfterResize file processed rc rz env).sentBuffer = some processed := by
  unfold imageAfterResize
  cases env.apiResult with
  | error d => rfl
  | ok api =>
      cases env.jsonParseResult with
      | error m => rfl
      | ok p => rfl

/-- The data URL sent by imageAfterResize. -/
lemma imageAfterResize_sentUrl (file : UploadedFile) (processed : Buffer)
    (rc : Option ResizeCall) (rz : Bool) (env : ImgEnv) :
    (imageAfterResize file processed rc rz env).sentUrl
      = some (imageDataUrl (imageMimeTypeOf file.mimetype rz)
          (base64Encode processed.toList)) := by
  unfold imageAfterResize
  cases env.apiResult with
  | error d => rfl
  | ok api =>
      cases env.jsonParseResult with
      | error m => rfl
      | ok p => rfl

/-- The response of imageAfterResize when the completion call fails. -/
lemma imageAfterResize_apiError (file : UploadedFile) (processed : Buffer)
    (rc : Option ResizeCall) (rz : Bool) (env : ImgEnv) (d : String)
    (h : env.apiResult = Except.error d) :
    (imageAfterResize file processed rc rz env).response
      = { status := 500, success := some false,
          error := some "Image processing failed", details := some d } := by
  unfold imageAfterResize
  rw [h]

/-- A non-empty mime type is kept as is by the fallback of line 226,
whichever branch produced the processed buffer. -/
lemma imageMimeTypeOf_nonempty (m : String) (rz : Bool) (h : m ≠ "") :
    imageMimeTypeOf m rz = m := by
  simp [imageMimeTypeOf, jsStringOr, h]

/-- The data URL built for the mime type image/png carries a duplicated
image/ segment. -/
lemma imageDataUrl_png (x : String) :
    imageDataUrl "image/png" x = "data:image/image/png;base64," ++ x := by
  have h : ("data:image/" ++ "image/png" ++ ";base64," : String)
      = "data:image/image/png;base64," := by decide
  unfold imageDataUrl
  rw [h]

/-- Accumulated counters after a list of reported usages, from an arbitrary
start state. -/
lemma runRequests_map_some (ts : List ℕ) : ∀ s : UsageStats,
    (runRequests s (ts.map some)).totalTokensUsed = s.totalTokensUsed + ts.sum ∧
    (runRequests s (ts.map some)).estimatedCost
      = s.estimatedCost + ((ts.sum : ℚ) / 1000) * COST_PER_1K_TOKENS := by
  induction ts with
  | nil => intro s; simp [runRequests]
  | cons t rest ih =>
      intro s
      have step : runRequests s ((t :: rest).map some)
          = runRequests (recordUsage s (some t)) (rest.map some) := rfl
      by_cases ht : t = 0
      · subst ht
        have hrec : recordUsage s (some 0) = s := rfl
        rw [step, hrec]
        refine ⟨?_, ?_⟩
        · rw [(ih s).1]; simp
        · rw [(ih s).2]; push_cast [List.map_cons, List.sum_cons]; ring
      · have hrec : recordUsage s (some t)
            = { totalTokensUsed := s.totalTokensUsed + t,
                estimatedCost := s.estimatedCost + (t : ℚ) / 1000 * COST_PER_1K_TOKENS } := by
          simp [recordUsage, ht]
        rw [step, hrec]
        refine ⟨?_, ?_⟩
        · rw [(ih _).1]; simp [Nat.add_assoc]
        · rw [(ih _).2]; push_cast [List.map_cons, List.sum_cons]; ring

/-! Claim theorems. -/

/-- A PDF request whose text extraction fails. -/
def c1PdfEnv : PdfEnv :=
  { file := some { path := "uploads/p1", mimetype := "application/pdf" },
    pdfParseResult := Except.error "Invalid PDF structure",
    apiResult := Except.error "unused",
    jsonParseResult := Except.error "unused" }

/-- An oversized image request whose dimension read fails. -/
def c1ImgEnv : ImgEnv :=
  { file := some { path := "uploads/i1", mimetype := "image/png" },
    imageBuffer := { size := 15728641, byte := fun _ => 0 },
    dimsResult := Except.error "unsupported file type",
    sharpResult := Except.error "unused",
    apiResult := Except.error "unused",
    jsonParseResult := Except.error "unused" }

/-- C1: the claim says that whenever a file was stored at intake the
handler deletes it before responding, on every outcome.  The code violates
this: on the PDF route every pdfParse or completion failure reaches the
outer catch, whose cleanup reads the out-of-scope const filePath, so the
swallowed ReferenceError leaves the file in place while a 500 is sent; on
the image route a resize failure returns 400 immediately with no unlink at
all.  This theorem evaluates both handlers at such failing inputs: a
response is sent yet the list of unlinked paths is empty. -/
theorem C1_failure_paths_leave_stored_file :
    (uploadPdf c1PdfEnv).deleted = [] ∧ (uploadPdf c1PdfEnv).response.status = 500
    ∧ (uploadImage c1ImgEnv).deleted = []
    ∧ (uploadImage c1ImgEnv).response.status = 400 := by
  refine ⟨rfl, rfl, ?_, ?_⟩ <;> rfl

/-- A PDF request whose completion content is not JSON. -/
def c2PdfEnv : PdfEnv :=
  { file := some { path := "uploads/p2", mimetype := "application/pdf" },
    pdfParseResult := Except.ok "Milk 3.99 Total 3.99",
    apiResult := Except.ok { content := "not json", usage := some 100 },
    jsonParseResult := Except.error "Unexpected token" }

/-- A within-budget image request whose completion content is not JSON. -/
def c2ImgEnv : ImgEnv :=
  { file := some { path := "uploads/i2", mimetype := "image/png" },
    imageBuffer := { size := 3, byte := fun _ => 7 },
    dimsResult := Except.error "unused",
    sharpResult := Except.error "unused",
    apiResult := Except.ok { content := "not json", usage := some 100 },
    jsonParseResult := Except.error "Unexpected token" }

/-- C2: the claim says a JSON-parse failure on either route yields 500 with
error parsing failed.  On the PDF route the code violates this: the inner
catch(error1) reads the unbound name error while building its body, the
ReferenceError (message: error is not defined) escapes to the outer catch,
and the client receives error OpenAI API failed instead.  On the image
route the body the claim describes is sent, but with the capitalised
label Parsing failed (and the raw content, as the claim says).  This
theorem evaluates both handlers on a completion content that is not
JSON. -/
theorem C2_parse_failure_responses_diverge :
    (uploadPdf c2PdfEnv).response
      = { status := 500, success := some false,
          error := some "OpenAI API failed",
          details := some "error is not defined" }
    ∧ (uploadPdf c2PdfEnv).response.error ≠ some "parsing failed"
    ∧ (uploadImage c2ImgEnv).response
      = { status := 500, success := some false,
          error := some "Parsing failed",
          details := some "Unexpected token",
          rawContent := some "not json" }
    ∧ (uploadImage c2ImgEnv).response.error ≠ some "parsing failed" := by
  exact ⟨rfl, by decide, rfl, by decide⟩

/-- C3: for every image upload over the 15 MB budget whose dimensions are
read and whose re-encoding succeeds, the resize call the handler makes
uses width floor(origWidth * s) and height floor(origHeight * s) with
s = sqrt(MAX_SIZE_BYTES / (size * 1.5)), at JPEG quality 85,
progressive. -/
theorem C3_resize_call_matches_formula (env : ImgEnv) (f : UploadedFile)
    (w h : ℕ) (buf : Buffer)
    (hf : env.file = some f)
    (hsize : env.imageBuffer.size > MAX_SIZE_BYTES)
    (hdims : env.dimsResult = Except.ok (w, h))
    (hsharp : env.sharpResult = Except.ok buf) :
    (uploadImage env).resize = some
      { width := ⌊(w : ℝ) * Real.sqrt ((MAX_SIZE_BYTES : ℝ)
          / ((env.imageBuffer.size : ℝ) * 1.5))⌋₊,
        height := ⌊(h : ℝ) * Real.sqrt ((MAX_SIZE_BYTES : ℝ)
          / ((env.imageBuffer.size : ℝ) * 1.5))⌋₊,
        quality := 85, progressive := true } := by
  have hpos : 0 < env.imageBuffer.size :=
    lt_trans (by decide : 0 < MAX_SIZE_BYTES) hsize
  simp only [uploadImage, hf, hdims, hsharp, if_pos hsize, imageAfterResize_resize]
  rw [scaledDim_eq_floor w _ hpos, scaledDim_eq_floor h _ hpos]

/-- Witness for C3: a 16 MB upload with 4032 x 3024 dimensions enters the
resize branch with the formula dimensions, quality 85, progressive. -/
theorem C3_witness :
    (uploadImage
      { file := some { path := "uploads/i3", mimetype := "image/jpeg" },
        imageBuffer := { size := 16 * 1024 * 1024, byte := fun _ => 0 },
        dimsResult := Except.ok (4032, 3024),
        sharpResult := Except.ok { size := 9000000, byte := fun _ => 0 },
        apiResult := Except.ok { content := "x", usage := some 500 },
        jsonParseResult := Except.ok "x" }).resize = some
      { width := ⌊((4032 : ℕ) : ℝ) * Real.sqrt ((MAX_SIZE_BYTES : ℝ)
          / (((16 * 1024 * 1024 : ℕ) : ℝ) * 1.5))⌋₊,
        height := ⌊((3024 : ℕ) : ℝ) * Real.sqrt ((MAX_SIZE_BYTES : ℝ)
          / (((16 * 1024 * 1024 : ℕ) : ℝ) * 1.5))⌋₊,
        quality := 85, progressive := true } :=
  C3_resize_call_matches_formula _ _ 4032 3024 _ rfl (by decide) rfl rfl

/-- An image request whose completion call fails with an upstream detail. -/
def c4ImgEnv : ImgEnv :=
  { file := some { path := "uploads/i4", mimetype := "image/png" },
    imageBuffer := { size := 4, byte := fun _ => 0 },
    dimsResult := Except.error "unused",
    sharpResult := Except.error "unused",
    apiResult := Except.error "Request failed with status code 401",
    jsonParseResult := Except.ok "unused" }

/-- C4 counterexample: the claim says both routes answer a completion-API
failure with error OpenAI API failed, but the outer catch of the image
route answers with error Image processing failed. -/
theorem C4_counterexample :
    (uploadImage c4ImgEnv).response.status = 500
    ∧ (uploadImage c4ImgEnv).response.error = some "Image processing failed"
    ∧ (uploadImage c4ImgEnv).response.error ≠ some "OpenAI API failed" := by
  exact ⟨rfl, rfl, by decide⟩

/-- C4 amended: when the completion call fails, each route answers 500 with
success false and the upstream detail, the PDF route with error
OpenAI API failed and the image route with error Image processing failed.
The image route reaches the completion call when its buffer is within
budget or its resize step succeeded. -/
theorem C4_api_failure_error_labels (penv : PdfEnv) (ienv : ImgEnv)
    (pf imf : UploadedFile) (text d1 d2 : String)
    (hpf : penv.file = some pf)
    (hparse : penv.pdfParseResult = Except.ok text)
    (hpapi : penv.apiResult = Except.error d1)
    (hif : ienv.file = some imf)
    (hiapi : ienv.apiResult = Except.error d2)
    (hstep : ienv.imageBuffer.size ≤ MAX_SIZE_BYTES
      ∨ (ienv.imageBuffer.size > MAX_SIZE_BYTES
          ∧ ∃ w h buf, ienv.dimsResult = Except.ok (w, h)
              ∧ ienv.sharpResult = Except.ok buf)) :
    (uploadPdf penv).response
      = { status := 500, success := some false,
          error := some "OpenAI API failed", details := some d1 }
    ∧ (uploadImage ienv).response
      = { status := 500, success := some false,
          error := some "Image processing failed", details := some d2 } := by
  constructor
  · simp only [uploadPdf, hpf, hparse, hpapi]
    rfl
  · rcases hstep with hsize | ⟨hsize, w, h, buf, hdims, hsharp⟩
    · simp only [uploadImage, hif, if_neg (not_lt.mpr hsize)]
      exact imageAfterResize_apiError _ _ _ _ _ _ hiapi
    · simp only [uploadImage, hif, hdims, hsharp, if_pos hsize]
      exact imageAfterResize_apiError _ _ _ _ _ _ hiapi

/-- A PDF request whose completion call fails with an upstream detail. -/
def c4PdfEnv : PdfEnv :=
  { file := some { path := "uploads/p4", mimetype := "application/pdf" },
    pdfParseResult := Except.ok "Milk 3.99",
    apiResult := Except.error "connect ECONNREFUSED",
    jsonParseResult := Except.ok "unused" }

/-- Witness for the amended C4 at concrete failing requests. -/
theorem C4_witness :
    (uploadPdf c4PdfEnv).response
      = { status := 500, success := some false,
          error := some "OpenAI API failed",
          details := some "connect ECONNREFUSED" }
    ∧ (uploadImage c4ImgEnv).response
      = { status := 500, success := some false,
          error := some "Image processing failed",
          details := some "Request failed with status code 401" } :=
  C4_api_failure_error_labels c4PdfEnv c4ImgEnv _ _ _ _ _
    rfl rfl rfl rfl rfl (Or.inl (by decide))

/-- C5: after N completed requests reporting token counts t1..tN (in any
order, i.e. for every list of counts), totalTokensUsed is their sum and
estimatedCost is that sum over 1000 times the fixed per-1K-token rate. -/
theorem C5_token_accounting (ts : List ℕ) :
    (runRequests initialStats (ts.map some)).totalTokensUsed = ts.sum
    ∧ (runRequests initialStats (ts.map some)).estimatedCost
      = ((ts.sum : ℚ) / 1000) * COST_PER_1K_TOKENS := by
  have h := runRequests_map_some ts initialStats
  simpa [initialStats] using h

/-- Witness for C5 at a concrete sequence of reported counts. -/
theorem C5_witness :
    (runRequests initialStats ([120, 0, 250].map some)).totalTokensUsed
      = [120, 0, 250].sum
    ∧ (runRequests initialStats ([120, 0, 250].map some)).estimatedCost
      = ((([120, 0, 250] : List ℕ).sum : ℚ) / 1000) * COST_PER_1K_TOKENS :=
  C5_token_accounting [120, 0, 250]

/-- C6: every image whose byte size is within the 15 MB budget is passed to
the completion request unchanged and the resize path is never invoked. -/
theorem C6_within_budget_passthrough (env : ImgEnv) (f : UploadedFile)
    (hf : env.file = some f)
    (hsize : env.imageBuffer.size ≤ MAX_SIZE_BYTES) :
    (uploadImage env).resize = none
    ∧ (uploadImage env).sentBuffer = some env.imageBuffer := by
  simp only [uploadImage, hf, if_neg (not_lt.mpr hsize)]
  exact ⟨imageAfterResize_resize _ _ _ _ _, imageAfterResize_sentBuffer _ _ _ _ _⟩

/-- A small within-budget image request. -/
def c6ImgEnv : ImgEnv :=
  { file := some { path := "uploads/i6", mimetype := "image/png" },
    imageBuffer := { size := 5, byte := fun i => i },
    dimsResult := Except.error "unused",
    sharpResult := Except.error "unused",
    apiResult := Except.ok { content := "x", usage := some 10 },
    jsonParseResult := Except.ok "x" }

/-- Witness for C6 at a concrete small image. -/
theorem C6_witness :
    (uploadImage c6ImgEnv).resize = none
    ∧ (uploadImage c6ImgEnv).sentBuffer = some c6ImgEnv.imageBuffer :=
  C6_within_budget_passthrough c6ImgEnv _ rfl (by decide)

/-- C7 counterexample: the claim says an upload over the 20 MB limit is
rejected with a 4xx response, but the limit error lands in the error
middleware, which answers 500 Server error: the status at one byte over
the limit is 500, which is not in the 4xx range. -/
theorem C7_counterexample :
    uploadIntake (20 * 1024 * 1024 + 1)
      = some { status := 500, success := some false,
               error := some "Server error", message := some "File too large" }
    ∧ ¬(400 ≤ 500 ∧ 500 < 500) := by
  exact ⟨by decide, by decide⟩

/-- C7 amended: every upload over the 20 MB limit is rejected before the
route handler runs, with a 500 response built by the error middleware
(body success false, error Server error), not a 4xx. -/
theorem C7_oversized_rejected_with_500 (size : ℕ)
    (hsize : size > uploadFileSizeLimit) :
    uploadIntake size = some (errorMiddlewareResponse "File too large")
    ∧ (errorMiddlewareResponse "File too large").status = 500 := by
  exact ⟨by simp [uploadIntake, hsize], rfl⟩

/-- Witness for the amended C7 one byte over the limit. -/
theorem C7_witness :
    uploadIntake (20 * 1024 * 1024 + 1)
      = some (errorMiddlewareResponse "File too large")
    ∧ (errorMiddlewareResponse "File too large").status = 500 :=
  C7_oversized_rejected_with_500 (20 * 1024 * 1024 + 1) (by decide)

/-- C8: within one 15-minute window the first five requests of a client
pass the limiter, and the sixth is answered 429 with the configured
message, independent of the request body. -/
theorem C8_sixth_request_rate_limited :
    (∀ n, 1 ≤ n → n ≤ 5 → apiLimiterDecision n = none)
    ∧ apiLimiterDecision 6 = some apiLimiterMessage
    ∧ apiLimiterMessage.status = 429
    ∧ apiLimiterMessage.success = some false
    ∧ apiLimiterMessage.error
      = some "Too many requests from this IP, please try again after 15 minutes"
    ∧ apiLimiterWindowMs = 15 * 60 * 1000 := by
  refine ⟨?_, rfl, rfl, rfl, rfl, rfl⟩
  intro n h1 h5
  simp only [apiLimiterDecision, apiLimiterMax]
  rw [if_pos h5]

/-- Witness for C8: the third request passes, the sixth is limited. -/
theorem C8_witness :
    apiLimiterDecision 3 = none
    ∧ apiLimiterDecision 6 = some apiLimiterMessage :=
  ⟨C8_sixth_request_rate_limited.1 3 (by decide) (by decide),
   C8_sixth_request_rate_limited.2.1⟩

/-- C9: a request with no file under the expected multipart field is
answered 400 with the no-file error of its route, and no unlink is
attempted. -/
theorem C9_no_file_no_cleanup (penv : PdfEnv) (ienv : ImgEnv)
    (hp : penv.file = none) (hi : ienv.file = none) :
    uploadPdf penv
      = { response := { status := 400, error := some "No file uploaded" },
          deleted := [] }
    ∧ uploadImage ienv
      = { response := { status := 400, error := some "No image uploaded" },
          deleted := [] } := by
  constructor
  · simp only [uploadPdf, hp]
  · simp only [uploadImage, hi]

/-- A PDF request with no file field. -/
def c9PdfEnv : PdfEnv :=
  { file := none,
    pdfParseResult := Except.error "unused",
    apiResult := Except.error "unused",
    jsonParseResult := Except.error "unused" }

/-- An image request with no file field. -/
def c9ImgEnv : ImgEnv :=
  { file := none,
    imageBuffer := { size := 0, byte := fun _ => 0 },
    dimsResult := Except.error "unused",
    sharpResult := Except.error "unused",
    apiResult := Except.error "unused",
    jsonParseResult := Except.error "unused" }

/-- Witness for C9 at concrete no-file requests. -/
theorem C9_witness :
    uploadPdf c9PdfEnv
      = { response := { status := 400, error := some "No file uploaded" },
          deleted := [] }
    ∧ uploadImage c9ImgEnv
      = { response := { status := 400, error := some "No image uploaded" },
          deleted := [] } :=
  C9_no_file_no_cleanup c9PdfEnv c9ImgEnv rfl rfl

/-- C10: for every PNG upload (multipart mime type image/png), whenever the
handler sends bytes to the completion API - the pass-through branch sends
the original buffer, the resize branch its re-encoded buffer, and the
non-empty multipart type is kept in both - the inline URL is data:image/
followed by the full mime type, then ;base64, and the base64 payload: the
literal duplicated prefix data:image/image/png;base64, rather than a
standard data URI.  When no bytes are sent (resize failure) both fields
are none. -/
theorem C10_png_data_url_duplicated (env : ImgEnv) (f : UploadedFile)
    (hf : env.file = some f) (hmime : f.mimetype = "image/png") :
    (uploadImage env).sentUrl
      = (uploadImage env).sentBuffer.map
          (fun b => "data:image/image/png;base64," ++ base64Encode b.toList) := by
  have hsend : ∀ (processed : Buffer) (rc : Option ResizeCall) (rz : Bool),
      (imageAfterResize f processed rc rz env).sentUrl
        = (imageAfterResize f processed rc rz env).sentBuffer.map
            (fun b => "data:image/image/png;base64," ++ base64Encode b.toList) := by
    intro processed rc rz
    rw [imageAfterResize_sentUrl, imageAfterResize_sentBuffer, hmime,
      imageMimeTypeOf_nonempty _ _ (by decide), imageDataUrl_png]
    rfl
  simp only [uploadImage, hf]
  by_cases h : env.imageBuffer.size > MAX_SIZE_BYTES
  · rw [if_pos h]
    rcases hd : env.dimsResult with d | ⟨w, hgt⟩
    · rfl
    · rcases hs : env.sharpResult with e | buf
      · rfl
      · exact hsend _ _ _
  · rw [if_neg h]
    exact hsend _ _ _

/-- A two-byte PNG upload. -/
def c10ImgEnv : ImgEnv :=
  { file := some { path := "uploads/i10", mimetype := "image/png" },
    imageBuffer := { size := 2, byte := fun _ => 77 },
    dimsResult := Except.error "unused",
    sharpResult := Except.error "unused",
    apiResult := Except.ok { content := "x", usage := some 10 },
    jsonParseResult := Except.ok "x" }

/-- Witness for C10 at a concrete PNG upload. -/
theorem C10_witness :
    (uploadImage c10ImgEnv).sentUrl
      = (uploadImage c10ImgEnv).sentBuffer.map
          (fun b => "data:image/image/png;base64," ++ base64Encode b.toList) :=
  C10_png_data_url_duplicated c10ImgEnv _ rfl rfl

end SplitBill
